import Mathlib

/-! Verification of the query-interpretation and price-estimation pipeline of
`src/backend/main.py` (a FastAPI backend over the Rebrickable catalog API with
an optional OpenAI-based price estimator).

Modelling conventions:
* Python strings are `List Char` (ASCII inputs; `str.lower`, `str.strip`,
  `str.split` are modelled character-wise).
* The outbound HTTP calls (catalog fetch, catalog search, model completion)
  are modelled by oracle values describing the outcome of the one call the
  code makes, passed in explicitly (`FetchOutcome`, `SearchOutcome`,
  `Except Unit (List Char)`).
* Python floats `0.10`, `0.05`, `0.12` are modelled as the exact rationals
  they denote (`1/10`, `1/20`, `12/100`); `f"{x:.2f}"` is modelled by `fmt2`
  on those exact values.
* `HTTPException(status_code, detail)` raised by `fetch_set_data` and caught
  in `process_chat_query` is modelled by `Except HTTPException`.
-/

/-- Shorthand: the character list of a string literal. -/
def str (s : String) : List Char :=
  s.toList

/-- Python `str.lower()` (ASCII). -/
def pyLower (s : List Char) : List Char :=
  s.map Char.toLower

/-- Python whitespace for `str.strip`/`str.split` and the regex class `\s`
(ASCII): space, tab, newline, carriage return, vertical tab, form feed. -/
def pyIsSpace (c : Char) : Bool :=
  c = ' ' || c = '\t' || c = '\n' || c = '\r' || c = '\x0b' || c = '\x0c'

/-- Python `str.strip()` (ASCII whitespace). -/
def pyStrip (s : List Char) : List Char :=
  ((s.dropWhile pyIsSpace).reverse.dropWhile pyIsSpace).reverse

/-- Worker for `splitWs`: `acc` holds the current word, reversed. -/
def splitWsGo : List Char → List Char → List (List Char)
  | [], acc => if acc = [] then [] else [acc.reverse]
  | c :: rest, acc =>
    if pyIsSpace c then
      if acc = [] then splitWsGo rest [] else acc.reverse :: splitWsGo rest []
    else
      splitWsGo rest (c :: acc)

/-- Python `str.split()` with no argument: split on whitespace runs,
discarding empty pieces. -/
def splitWs (s : List Char) : List (List Char) :=
  splitWsGo s []

/-- Whether `needle` is a leading segment of `hay`. -/
def startsWith : List Char → List Char → Bool
  | [], _ => true
  | _ :: _, [] => false
  | a :: as, b :: bs => a = b && startsWith as bs

/-- Python `needle in hay` on strings: contiguous-substring test. -/
def hasSubstr (hay needle : List Char) : Bool :=
  if startsWith needle hay then true
  else
    match hay with
    | [] => false
    | _ :: t => hasSubstr t needle

/-- Python `"sep".join pieces`. -/
def joinSep (sep : List Char) : List (List Char) → List Char
  | [] => []
  | [x] => x
  | x :: y :: xs => x ++ sep ++ joinSep sep (y :: xs)

/-! ### Regex machinery for `extract_set_number`

The source applies `re.search` with these patterns, in order, IGNORECASE:
`\b(\d{4,5}-\d+)\b`, `\b(\d{4,5})\b`, `set\s+(\d{4,5})`, `#(\d{4,5})`.
Each `tryP*At prev s` attempts a match anchored at the position whose
remaining input is `s`, `prev` being the character just before (for `\b`);
it returns the text of capture group 1. `reSearch` scans left to right, so
the leftmost match wins, exactly as `re.search` does.  Greedy bounded
repetition `{4,5}` is realised by trying length 5 first, then 4; the
backtracking of `\d+`/`\s+` past a maximal run always fails for these
patterns (the character after a shortened run would still be of the same
class), so maximal-run matching is faithful. -/

/-- Regex word character `\w` (ASCII): letter, digit or underscore. -/
def isWordChar (c : Char) : Bool :=
  c.isAlphanum || c = '_'

/-- Whether an optional character (none = beyond the string) is a word char. -/
def optIsWord : Option Char → Bool
  | some c => isWordChar c
  | none => false

/-- The `\b` assertion between a previous and a next character. -/
def boundaryB (prev nxt : Option Char) : Bool :=
  optIsWord prev != optIsWord nxt

/-- Maximal leading digit run and the rest. -/
def takeDigits : List Char → List Char × List Char
  | [] => ([], [])
  | c :: rest =>
    if c.isDigit then
      let p := takeDigits rest
      (c :: p.1, p.2)
    else
      ([], c :: rest)

/-- Maximal leading whitespace run and the rest. -/
def takeWs : List Char → List Char × List Char
  | [] => ([], [])
  | c :: rest =>
    if pyIsSpace c then
      let p := takeWs rest
      (c :: p.1, p.2)
    else
      ([], c :: rest)

/-- Exactly `k` leading digits, with the rest; `none` if fewer available. -/
def exactDigits : Nat → List Char → Option (List Char × List Char)
  | 0, s => some ([], s)
  | _ + 1, [] => none
  | k + 1, c :: rest =>
    if c.isDigit then (exactDigits k rest).map (fun p => (c :: p.1, p.2))
    else none

/-- Match `\d{k}-\d+\b` at the current position, capturing `digits-digits`. -/
def tryP1Len (k : Nat) (s : List Char) : Option (List Char) :=
  match exactDigits k s with
  | none => none
  | some (d, rest) =>
    match rest with
    | '-' :: rest2 =>
      let p := takeDigits rest2
      if p.1 = [] then none
      else if optIsWord p.2.head? then none
      else some (d ++ '-' :: p.1)
    | _ => none

/-- Pattern 1: `\b(\d{4,5}-\d+)\b`. -/
def tryP1At (prev : Option Char) (s : List Char) : Option (List Char) :=
  if boundaryB prev s.head? then
    match tryP1Len 5 s with
    | some g => some g
    | none => tryP1Len 4 s
  else none

/-- Match `\d{k}\b` at the current position. -/
def tryP2Len (k : Nat) (s : List Char) : Option (List Char) :=
  match exactDigits k s with
  | none => none
  | some (d, rest) => if optIsWord rest.head? then none else some d

/-- Pattern 2: `\b(\d{4,5})\b`. -/
def tryP2At (prev : Option Char) (s : List Char) : Option (List Char) :=
  if boundaryB prev s.head? then
    match tryP2Len 5 s with
    | some g => some g
    | none => tryP2Len 4 s
  else none

/-- Match `(\d{4,5})` at the current position (greedy, nothing follows). -/
def tryDigits45 (s : List Char) : Option (List Char) :=
  match exactDigits 5 s with
  | some (d, _) => some d
  | none =>
    match exactDigits 4 s with
    | some (d, _) => some d
    | none => none

/-- Pattern 3: `set\s+(\d{4,5})`, IGNORECASE on the literal `set`. -/
def tryP3At (_prev : Option Char) (s : List Char) : Option (List Char) :=
  match s with
  | c1 :: c2 :: c3 :: rest =>
    if c1.toLower = 's' ∧ c2.toLower = 'e' ∧ c3.toLower = 't' then
      let p := takeWs rest
      if p.1 = [] then none else tryDigits45 p.2
    else none
  | _ => none

/-- Pattern 4: `#(\d{4,5})`. -/
def tryP4At (_prev : Option Char) (s : List Char) : Option (List Char) :=
  match s with
  | '#' :: rest => tryDigits45 rest
  | _ => none

/-- Scan of `re.search`: try the pattern at each position left to right. -/
def searchFrom (tryAt : Option Char → List Char → Option (List Char)) :
    Option Char → List Char → Option (List Char)
  | prev, [] => tryAt prev []
  | prev, c :: rest =>
    match tryAt prev (c :: rest) with
    | some g => some g
    | none => searchFrom tryAt (some c) rest

/-- Run `re.search(pattern, text)`, returning capture group 1. -/
def reSearch (tryAt : Option Char → List Char → Option (List Char))
    (text : List Char) : Option (List Char) :=
  searchFrom tryAt none text

/-- Source lines 123-125: `if '-' not in set_num: set_num += '-1'`. -/
def normalizeId (set_num : List Char) : List Char :=
  if set_num.contains '-' then set_num else set_num ++ str "-1"

/-- The `for pattern in patterns` loop of `extract_set_number`. -/
def extractLoop : List (Option Char → List Char → Option (List Char)) →
    List Char → Option (List Char)
  | [], _ => none
  | p :: ps, q =>
    match reSearch p q with
    | some g => some (normalizeId g)
    | none => extractLoop ps q

/-- Embedding of `extract_set_number(query)`, `src/backend/main.py` lines 109-128. -/
def extract_set_number (query : List Char) : Option (List Char) :=
  extractLoop [tryP1At, tryP2At, tryP3At, tryP4At] query

/-! ### Data model and external-call oracles -/

/-- Catalog item as used by the pipeline (`set_data` dict fields that the
code reads; all present per the CatalogItem contract). -/
structure SetData where
  set_num : List Char
  name : List Char
  year : ℤ
  num_parts : ℕ
  theme_id : Option ℤ
deriving DecidableEq

/-- The `set_info` block of a chat response (lines 331-336). -/
structure SetInfoB where
  name : List Char
  set_num : List Char
  pieces : ℕ
  year : ℤ
deriving DecidableEq

/-- The JSON object `process_chat_query` returns. -/
structure ChatResult where
  response : List Char
  context : Option (List Char)
  set_info : Option SetInfoB
deriving DecidableEq

/-- Model of `fastapi.HTTPException` as raised by `fetch_set_data`. -/
structure HTTPException where
  status_code : ℕ
  detail : List Char
deriving DecidableEq

/-- Process configuration: the two credentials, read once at start.
Python truthiness `if not KEY` is the emptiness test. -/
structure Config where
  REBRICKABLE_API_KEY : List Char
  OPENAI_API_KEY : List Char
deriving DecidableEq

/-- Outcome of the single catalog `GET sets/{set_num}/` request, if made:
a response with a status code (body parsed as `SetData`, used only on 200),
a timeout, or another transport failure with its message. -/
inductive FetchOutcome where
  | response (status : ℕ) (body : SetData)
  | timeout
  | requestErr (msg : List Char)
deriving DecidableEq

/-- A search hit; the code reads `s['name']` and `s['set_num']`. -/
structure SearchHit where
  name : List Char
  set_num : List Char
deriving DecidableEq

/-- Outcome of the single catalog search request, if made: a response with
status and parsed result list, or any exception (`except: pass`). -/
inductive SearchOutcome where
  | response (status : ℕ) (results : List SearchHit)
  | exc
deriving DecidableEq

/-- Outcome of an auxiliary catalog request (parts, themes, sets-by-theme);
result items are opaque here since the code passes them through. -/
inductive AuxOutcome where
  | response (status : ℕ) (results : List (List Char))
  | exc
deriving DecidableEq

/-- Embedding of `fetch_set_data(set_num)`, lines 130-148: raises `HTTPException` 500
when no catalog key is configured, 404 when the upstream says not found,
the upstream status on other non-200 responses, 408 on timeout, 500 on
other transport errors; on 200 returns the parsed body. -/
def fetch_set_data (key set_num : List Char) (net : FetchOutcome) :
    Except HTTPException SetData :=
  if key = [] then
    .error ⟨500, str "Rebrickable API key not configured"⟩
  else
    match net with
    | .response status body =>
      if status = 404 then
        .error ⟨404, str "LEGO set " ++ set_num ++ str " not found"⟩
      else if status ≠ 200 then
        .error ⟨status, str "Rebrickable API error"⟩
      else
        .ok body
    | .timeout => .error ⟨408, str "API request timeout"⟩
    | .requestErr m => .error ⟨500, str "API request failed: " ++ m⟩

/-- Embedding of `search_sets_by_name(name, page_size)`, lines 150-165: empty list when
no catalog key is configured, on any non-200 status and on any exception;
the parsed `results` on 200. -/
def search_sets_by_name (key nm : List Char) (page_size : ℕ)
    (net : SearchOutcome) : List SearchHit :=
  if key = [] then []
  else
    match net with
    | .response status results => if status = 200 then results else []
    | .exc => []

/-- Embedding of `get_set_parts(set_num)`, lines 167-181: same empty-on-failure policy. -/
def get_set_parts (key set_num : List Char) (net : AuxOutcome) :
    List (List Char) :=
  if key = [] then []
  else
    match net with
    | .response status results => if status = 200 then results else []
    | .exc => []

/-- Embedding of `get_themes()`, lines 183-197: same empty-on-failure policy. -/
def get_themes (key : List Char) (net : AuxOutcome) : List (List Char) :=
  if key = [] then []
  else
    match net with
    | .response status results => if status = 200 then results else []
    | .exc => []

/-- Embedding of `get_sets_by_theme(theme_id, page_size)`, lines 199-214: same
empty-on-failure policy. -/
def get_sets_by_theme (key : List Char) (theme_id : ℤ) (page_size : ℕ)
    (net : AuxOutcome) : List (List Char) :=
  if key = [] then []
  else
    match net with
    | .response status results => if status = 200 then results else []
    | .exc => []

/-! ### Price estimation (`get_llm_response`, lines 47-107) -/

/-- Integer floor of a rational (`Int./` is Euclidean division, which is
floor division for a positive denominator). -/
def ratFloor (q : ℚ) : ℤ :=
  q.num / (q.den : ℤ)

/-- Decimal digits of a natural number. -/
def natToDec (n : ℕ) : List Char :=
  Nat.toDigits 10 n

/-- Decimal rendering of an integer (Python `f"{n}"`). -/
def intToDec (n : ℤ) : List Char :=
  if n < 0 then '-' :: natToDec n.natAbs else natToDec n.toNat

/-- Two-digit zero-padded rendering of a value in `[0, 100)`. -/
def pad2 (n : ℤ) : List Char :=
  if n < 10 then '0' :: intToDec n else intToDec n

/-- Python `f"{x:.2f}"` on the exact nonnegative rational `x` (round half
up to a whole number of cents, then print `units.cents`). -/
def fmt2 (q : ℚ) : List Char :=
  let cents := ratFloor (q * 100 + 1 / 2)
  intToDec (cents / 100) ++ '.' :: pad2 (cents % 100)

/-- Lines 56-58: `pieces * 0.10 * max(1.0, (2024 - year) * 0.05)`. -/
def heuristic_price (pieces : ℕ) (year : ℤ) : ℚ :=
  let base_price_per_piece : ℚ := 1 / 10
  let age_factor : ℚ := max 1 (((2024 - year : ℤ) : ℚ) * (1 / 20))
  (pieces : ℚ) * base_price_per_piece * age_factor

/-- The heuristic-branch response text (lines 60-64). -/
def heuristicMsg (pieces : ℕ) (year : ℤ) : List Char :=
  str "Estimated retail price: $" ++ fmt2 (heuristic_price pieces year) ++
  str "\n(Based on " ++ natToDec pieces ++
  str " pieces and release year " ++ intToDec year ++
  str ")\nNote: This is a basic estimation. Actual prices vary based on rarity, condition, and market demand."

/-- Line 103: the simplified fallback `pieces * 0.12`. -/
def fallback_price (pieces : ℕ) : ℚ :=
  (pieces : ℚ) * (12 / 100)

/-- The fallback-branch response text (lines 104-106). -/
def fallbackMsg (pieces : ℕ) : List Char :=
  str "Estimated price: $" ++ fmt2 (fallback_price pieces) ++
  str " (basic estimation due to API unavailability)"

/-- Embedding of `get_llm_response(context, query, set_data)`, lines 47-107.  `llm` is
the outcome of the one `chat.completions.create` call, if made: `.ok` with
the completion text, `.error` for any raised exception.  The Python
function returns `{"response": s}`; we return `s`.  The source reads
`set_data.get('num_parts', 0)` / `.get('year', 2020)`; `SetData` carries
both fields, per the CatalogItem contract.  The `context` and `query`
arguments only feed the prompt of the network call, so they do not affect
the returned value. -/
def get_llm_response (openai_key : List Char)
    (llm : Except Unit (List Char)) (_context _query : List Char)
    (set_data : Option SetData) : List Char :=
  if openai_key = [] then
    match set_data with
    | some sd => heuristicMsg sd.num_parts sd.year
    | none => str "Unable to estimate price without set data."
  else
    match llm with
    | .ok content => pyStrip content
    | .error _ =>
      match set_data with
      | some sd => fallbackMsg sd.num_parts
      | none => str "Unable to get price estimation at the moment."

/-! ### The chat pipeline (`process_chat_query`, lines 304-368) -/

/-- The outcomes of the (at most one each) outbound calls a single query
handling may make. -/
structure World where
  fetchNet : FetchOutcome
  searchNet : SearchOutcome
  llm : Except Unit (List Char)

/-- Line 312. -/
def price_keywords : List (List Char) :=
  [str "price", str "cost", str "value", str "worth",
   str "expensive", str "cheap", str "retail"]

/-- Line 313: `any(keyword in query_lower for keyword in price_keywords)`. -/
def is_price_query (query : List Char) : Bool :=
  price_keywords.any (fun k => hasSubstr (pyLower query) k)

/-- Line 307. -/
def promptMsg : List Char :=
  str "Please ask me about LEGO set prices!"

/-- Lines 365-368 (two adjacent Python string literals, concatenated). -/
def capabilityMsg : List Char :=
  str "I\x27m specialized in LEGO set price estimates! Ask me about the price or value of any LEGO set. For example: \x27What\x27s the price of the Millennium Falcon 75192?\x27 or \x27How much does set 10179 cost?\x27"

/-- Lines 359-362. -/
def instructionalMsg : List Char :=
  str "Please specify a LEGO set number (e.g., \x2775192\x27) or include it in your question. Example: \x27What\x27s the price of set 75192?\x27 or \x27How much does 10179-1 cost?\x27"

/-- Line 340. -/
def notFoundMsg (set_num : List Char) : List Char :=
  str "Sorry, I couldn\x27t find LEGO set " ++ set_num ++
  str ". Please check the set number and try again."

/-- Lines 322-325: the context summary string. -/
def contextStr (sd : SetData) : List Char :=
  str "Set: " ++ sd.name ++ str ", Pieces: " ++ natToDec sd.num_parts ++
  str ", Year: " ++ intToDec sd.year ++ str ", Theme: " ++
  (match sd.theme_id with
   | some t => intToDec t
   | none => str "N/A")

/-- Lines 350-357: the suggestion list response.  The bullet prefix is the
mojibake three-character sequence present verbatim in the source. -/
def suggestionsMsg (search_query : List Char) (sets : List SearchHit) :
    List Char :=
  str "I found these LEGO sets matching \x27" ++ search_query ++
  str "\x27:\n" ++
  joinSep (str "\n")
    ((sets.take 3).map
      (fun s => str "â€¢ " ++ s.name ++ str " (" ++
        s.set_num ++ str ")")) ++
  str "\n\nPlease specify the set number for a price estimate."

/-- Embedding of `process_chat_query(query)`, lines 304-368.  The `try/except
HTTPException` around `fetch_set_data` is the `match` on its `Except`
result; every branch returns a `ChatResult`, so the function is total. -/
def process_chat_query (cfg : Config) (w : World) (query : List Char) :
    ChatResult :=
  if pyStrip query = [] then ⟨promptMsg, none, none⟩
  else if is_price_query query then
    match extract_set_number query with
    | some set_num =>
      match fetch_set_data cfg.REBRICKABLE_API_KEY set_num w.fetchNet with
      | .ok set_data =>
        let context := contextStr set_data
        let llm_response :=
          get_llm_response cfg.OPENAI_API_KEY w.llm context query
            (some set_data)
        ⟨llm_response, some context,
         some ⟨set_data.name, set_data.set_num, set_data.num_parts,
               set_data.year⟩⟩
      | .error e =>
        if e.status_code = 404 then ⟨notFoundMsg set_num, none, none⟩
        else ⟨str "Error fetching set data: " ++ e.detail, none, none⟩
    | none =>
      let search_terms := (splitWs query).filter
        (fun word => word.length > 3 &&
          !(price_keywords.contains (pyLower word)))
      if search_terms ≠ [] then
        let search_query := joinSep (str " ") search_terms
        let sets := search_sets_by_name cfg.REBRICKABLE_API_KEY
          search_query 10 w.searchNet
        if sets ≠ [] then ⟨suggestionsMsg search_query sets, none, none⟩
        else ⟨instructionalMsg, none, none⟩
      else ⟨instructionalMsg, none, none⟩
  else ⟨capabilityMsg, none, none⟩

/-! ### Helper lemmas -/

set_option maxRecDepth 100000

theorem startsWith_iff (needle hay : List Char) :
    startsWith needle hay = true ↔ ∃ r, hay = needle ++ r := by
  induction needle generalizing hay with
  | nil => simp [startsWith]
  | cons a as ih =>
    cases hay with
    | nil => simp [startsWith]
    | cons b bs =>
      simp only [startsWith, Bool.and_eq_true, decide_eq_true_eq, ih,
        List.cons_append, List.cons.injEq]
      constructor
      · rintro ⟨hab, r, hr⟩
        exact ⟨r, hab.symm, hr⟩
      · rintro ⟨r, hba, hr⟩
        exact ⟨hba.symm, r, hr⟩

theorem hasSubstr_iff (hay needle : List Char) :
    hasSubstr hay needle = true ↔ ∃ l r, hay = l ++ needle ++ r := by
  induction hay with
  | nil =>
    by_cases h : needle = []
    · subst h
      simp [hasSubstr, startsWith]
    · simp only [hasSubstr]
      rw [if_neg]
      · simp only [Bool.false_eq_true, false_iff]
        rintro ⟨l, r, hlr⟩
        rcases List.append_eq_nil.mp (List.append_eq_nil.mp hlr.symm).1 with ⟨-, h2⟩
        exact h h2
      · intro hsw
        rcases (startsWith_iff needle []).mp hsw with ⟨r, hr⟩
        rcases List.append_eq_nil.mp hr.symm with ⟨h1, -⟩
        exact h h1
  | cons c t ih =>
    simp only [hasSubstr]
    cases hsw : startsWith needle (c :: t) with
    | true =>
      have hex : ∃ l r, c :: t = l ++ (needle ++ r) := by
        rcases (startsWith_iff needle (c :: t)).mp hsw with ⟨r, hr⟩
        exact ⟨[], r, by simpa using hr⟩
      simp [hsw, hex]
    | false =>
      rw [if_neg (by simp [hsw])]
      rw [ih]
      constructor
      · rintro ⟨l, r, hlr⟩
        exact ⟨c :: l, r, by simp [hlr]⟩
      · rintro ⟨l, r, hlr⟩
        cases l with
        | nil =>
          exfalso
          have : startsWith needle (c :: t) = true :=
            (startsWith_iff needle (c :: t)).mpr ⟨r, by simpa using hlr⟩
          simp [this] at hsw
        | cons x xs =>
          refine ⟨xs, r, ?_⟩
          have h2 := hlr
          simp only [List.cons_append, List.cons.injEq] at h2
          exact h2.2

/-- Any output of the extraction loop is the normalization of some capture. -/
theorem extractLoop_norm (ps : List (Option Char → List Char → Option (List Char)))
    (q x : List Char) (h : extractLoop ps q = some x) :
    ∃ g, x = normalizeId g := by
  induction ps with
  | nil => simp [extractLoop] at h
  | cons p ps ih =>
    simp only [extractLoop] at h
    cases hr : reSearch p q with
    | some g =>
      rw [hr] at h
      exact ⟨g, (Option.some.injEq _ _ ▸ h).symm⟩
    | none =>
      rw [hr] at h
      exact ih h

/-- Normalization always yields an identifier containing a hyphen. -/
theorem normalizeId_contains_dash (x : List Char) :
    (normalizeId x).contains '-' = true := by
  unfold normalizeId
  by_cases h : x.contains '-' = true
  · rw [if_pos h]
    exact h
  · rw [if_neg h]
    simp [str]

/-- Normalization leaves an identifier that already has a hyphen alone. -/
theorem normalizeId_of_contains (y : List Char) (h : y.contains '-' = true) :
    normalizeId y = y := by
  unfold normalizeId
  rw [if_pos h]

/-- C3: `extract_set_number` applies the four candidate patterns in order
(full `NNNN(N)-N`; bare 4-5 digit run; `set` + digits; `#` + digits),
case-insensitively, returns the first match's capture normalized by
appending `-1` when it lacks a hyphen, and returns nothing when no pattern
matches; on the spec's examples it yields `75192-1`, `10179-1`, and
nothing. -/
theorem extract_ordered_patterns_c3 :
    (∀ q : List Char, extract_set_number q =
      (match reSearch tryP1At q with
       | some g => some (normalizeId g)
       | none =>
         match reSearch tryP2At q with
         | some g => some (normalizeId g)
         | none =>
           match reSearch tryP3At q with
           | some g => some (normalizeId g)
           | none =>
             match reSearch tryP4At q with
             | some g => some (normalizeId g)
             | none => none))
    ∧ (∀ g : List Char, normalizeId g =
        if g.contains '-' then g else g ++ str "-1")
    ∧ extract_set_number (str "What\x27s the price of 75192?") =
        some (str "75192-1")
    ∧ extract_set_number (str "How much does 10179-1 cost?") =
        some (str "10179-1")
    ∧ extract_set_number (str "no numbers here") = none := by
  refine ⟨fun q => ?_, fun g => rfl, by decide, by decide, by decide⟩
  simp only [extract_set_number, extractLoop]

/-- C6: normalization (append `-1` when the hyphen is absent) is
idempotent, every normalized identifier contains a hyphen, and every
identifier returned by `extract_set_number` is already normalized. -/
theorem normalize_idempotent_c6 :
    (∀ x : List Char, normalizeId (normalizeId x) = normalizeId x)
    ∧ (∀ x : List Char, (normalizeId x).contains '-' = true)
    ∧ (∀ q x : List Char, extract_set_number q = some x →
        normalizeId x = x ∧ x.contains '-' = true) := by
  have hid : ∀ x : List Char, normalizeId (normalizeId x) = normalizeId x :=
    fun x => normalizeId_of_contains _ (normalizeId_contains_dash x)
  refine ⟨hid, normalizeId_contains_dash, fun q x h => ?_⟩
  obtain ⟨g, hg⟩ := extractLoop_norm _ _ _ h
  subst hg
  exact ⟨hid g, normalizeId_contains_dash g⟩

/-- Closed witness for the extraction-dependent part of the C6 theorem. -/
theorem normalize_idempotent_c6_witness :
    normalizeId (str "10179-1") = str "10179-1"
    ∧ (str "10179-1").contains '-' = true :=
  normalize_idempotent_c6.2.2 (str "How much does 10179-1 cost?")
    (str "10179-1") (by decide)

/-- C7: `is_price_query` holds exactly when the lower-cased input contains
one of the seven price keywords as a substring. -/
theorem is_price_query_iff_c7 (t : List Char) :
    is_price_query t = true ↔
      ∃ k ∈ price_keywords, ∃ l r, pyLower t = l ++ k ++ r := by
  unfold is_price_query
  simp only [List.any_eq_true, hasSubstr_iff, List.append_assoc]

/-- C8: a non-blank query that is not a price query always yields the fixed
capability message, independently of both credentials and of every
external-call outcome. -/
theorem non_price_query_fixed_c8 (q : List Char)
    (h1 : pyStrip q ≠ []) (h2 : is_price_query q = false) :
    ∀ (cfg cfg' : Config) (w w' : World),
      process_chat_query cfg w q = ⟨capabilityMsg, none, none⟩
      ∧ process_chat_query cfg w q = process_chat_query cfg' w' q := by
  intro cfg cfg' w w'
  have hone : ∀ (c : Config) (v : World),
      process_chat_query c v q = ⟨capabilityMsg, none, none⟩ := by
    intro c v
    unfold process_chat_query
    rw [if_neg h1, if_neg (by simp [h2])]
  exact ⟨hone cfg w, (hone cfg w).trans (hone cfg' w').symm⟩

/-- Closed witness for C8 at the query `hello`, with two distinct
configuration states. -/
theorem non_price_query_fixed_c8_witness :
    process_chat_query ⟨str "k", str "o"⟩ ⟨.timeout, .exc, .error ()⟩
        (str "hello") = ⟨capabilityMsg, none, none⟩
    ∧ process_chat_query ⟨str "k", str "o"⟩ ⟨.timeout, .exc, .error ()⟩
        (str "hello")
      = process_chat_query ⟨[], []⟩ ⟨.response 200 ⟨[], [], 0, 0, none⟩,
          .response 200 [], .ok []⟩ (str "hello") :=
  non_price_query_fixed_c8 (str "hello") (by decide) (by decide)
    ⟨str "k", str "o"⟩ ⟨[], []⟩ ⟨.timeout, .exc, .error ()⟩
    ⟨.response 200 ⟨[], [], 0, 0, none⟩, .response 200 [], .ok []⟩

/-- C9: when the catalog reports NotFound (404) for the extracted
identifier of a price query, the pipeline answers with the not-found
message, which contains the identifier, and attaches no context and no
`set_info` block. -/
theorem not_found_names_identifier_c9 (cfg : Config) (w : World)
    (q sn : List Char) (e : HTTPException)
    (h1 : pyStrip q ≠ []) (h2 : is_price_query q = true)
    (h3 : extract_set_number q = some sn)
    (h4 : fetch_set_data cfg.REBRICKABLE_API_KEY sn w.fetchNet = .error e)
    (h5 : e.status_code = 404) :
    process_chat_query cfg w q = ⟨notFoundMsg sn, none, none⟩
    ∧ (∃ l r, notFoundMsg sn = l ++ sn ++ r) := by
  constructor
  · unfold process_chat_query
    rw [if_neg h1, if_pos (by simp [h2])]
    simp only [h3, h4, h5]
    simp
  · exact ⟨str "Sorry, I couldn\x27t find LEGO set ",
      str ". Please check the set number and try again.", rfl⟩

/-- Closed witness for C9 at the query of the spec's end-to-end test. -/
theorem not_found_names_identifier_c9_witness :
    process_chat_query ⟨str "k", []⟩
        ⟨.response 404 ⟨[], [], 0, 0, none⟩, .exc, .error ()⟩
        (str "price of 00000-1")
      = ⟨notFoundMsg (str "00000-1"), none, none⟩
    ∧ (∃ l r, notFoundMsg (str "00000-1") = l ++ str "00000-1" ++ r) :=
  not_found_names_identifier_c9 ⟨str "k", []⟩
    ⟨.response 404 ⟨[], [], 0, 0, none⟩, .exc, .error ()⟩
    (str "price of 00000-1") (str "00000-1")
    ⟨404, str "LEGO set 00000-1 not found"⟩
    (by decide) (by decide) (by decide) rfl rfl

/-- C10: a price query with no extractable identifier all of whose words
are short (≤ 3 characters) or price keywords yields the fixed instructional
message, for every configuration and every external-call outcome — in
particular the catalog search cannot influence the result on this path. -/
theorem short_words_no_search_c10 (q : List Char)
    (h1 : pyStrip q ≠ []) (h2 : is_price_query q = true)
    (h3 : extract_set_number q = none)
    (h4 : ∀ word ∈ splitWs q,
      word.length ≤ 3 ∨ price_keywords.contains (pyLower word) = true) :
    ∀ (cfg : Config) (w : World),
      process_chat_query cfg w q = ⟨instructionalMsg, none, none⟩ := by
  intro cfg w
  have hft : (splitWs q).filter
      (fun word => word.length > 3 &&
        !(price_keywords.contains (pyLower word))) = [] := by
    rw [List.filter_eq_nil_iff]
    intro a ha
    rcases h4 a ha with hlen | hkw
    · simp
      omega
    · have hmem : pyLower a ∈ price_keywords := by simpa using hkw
      simp [hmem]
  unfold process_chat_query
  rw [if_neg h1, if_pos (by simp [h2])]
  simp only [h3]
  rw [hft]
  rfl

/-- Closed witness for C10 at the query `price of it?`. -/
theorem short_words_no_search_c10_witness :
    process_chat_query ⟨str "k", str "o"⟩ ⟨.timeout, .exc, .error ()⟩
        (str "price of it?") = ⟨instructionalMsg, none, none⟩ :=
  short_words_no_search_c10 (str "price of it?") (by decide) (by decide)
    (by decide) (by decide) ⟨str "k", str "o"⟩ ⟨.timeout, .exc, .error ()⟩

/-- C4: with no model credential and set data available, the estimated
price is exactly `pieces * 0.10 * max(1.0, (2024 - year) * 0.05)` and the
response displays it rounded to two decimal places; at pieces=5000,
year=2024 the `max` floor is active and the price is 500.00, and at
pieces=1000, year=2000 it is 120.00. -/
theorem heuristic_formula_c4 (openai_key : List Char)
    (llm : Except Unit (List Char)) (ctx q : List Char) (sd : SetData)
    (h : openai_key = []) :
    get_llm_response openai_key llm ctx q (some sd)
      = heuristicMsg sd.num_parts sd.year
    ∧ heuristicMsg sd.num_parts sd.year
      = str "Estimated retail price: $"
        ++ fmt2 (heuristic_price sd.num_parts sd.year)
        ++ str "\n(Based on " ++ natToDec sd.num_parts
        ++ str " pieces and release year " ++ intToDec sd.year
        ++ str ")\nNote: This is a basic estimation. Actual prices vary based on rarity, condition, and market demand."
    ∧ heuristic_price sd.num_parts sd.year
      = (sd.num_parts : ℚ) * (1 / 10)
        * max 1 (((2024 - sd.year : ℤ) : ℚ) * (1 / 20))
    ∧ heuristic_price 5000 2024 = 500
    ∧ fmt2 (heuristic_price 5000 2024) = str "500.00"
    ∧ heuristic_price 1000 2000 = 120
    ∧ fmt2 (heuristic_price 1000 2000) = str "120.00" := by
  subst h
  exact ⟨rfl, rfl, rfl, by with_unfolding_all rfl, by with_unfolding_all rfl,
    by with_unfolding_all rfl, by with_unfolding_all rfl⟩

/-- Closed witness for C4 at pieces=5000, year=2024. -/
theorem heuristic_formula_c4_witness :
    get_llm_response [] (.error ()) [] []
        (some ⟨str "75192-1", str "Millennium Falcon", 2024, 5000, none⟩)
      = heuristicMsg 5000 2024
    ∧ fmt2 (heuristic_price 5000 2024) = str "500.00"
    ∧ fmt2 (heuristic_price 1000 2000) = str "120.00" :=
  ⟨(heuristic_formula_c4 [] (.error ()) [] []
      ⟨str "75192-1", str "Millennium Falcon", 2024, 5000, none⟩ rfl).1,
   (heuristic_formula_c4 [] (.error ()) [] []
      ⟨str "75192-1", str "Millennium Falcon", 2024, 5000, none⟩ rfl).2.2.2.2.1,
   (heuristic_formula_c4 [] (.error ()) [] []
      ⟨str "75192-1", str "Millennium Falcon", 2024, 5000, none⟩ rfl).2.2.2.2.2.2⟩

/-- C5: with a model credential configured, a failed model call makes the
estimator return the simplified `pieces * 0.12` price (the single call's
failure triggers the fallback directly; no retry is modelled because the
code performs none), which differs from the primary heuristic's
`0.10`-with-age-factor value (e.g. at pieces=1000, year=2024). -/
theorem model_failure_fallback_c5 (openai_key ctx q : List Char)
    (sd : SetData) (h : openai_key ≠ []) :
    get_llm_response openai_key (.error ()) ctx q (some sd)
      = fallbackMsg sd.num_parts
    ∧ fallbackMsg sd.num_parts
      = str "Estimated price: $" ++ fmt2 (fallback_price sd.num_parts)
        ++ str " (basic estimation due to API unavailability)"
    ∧ fallback_price sd.num_parts = (sd.num_parts : ℚ) * (12 / 100)
    ∧ fallback_price 1000 ≠ heuristic_price 1000 2024 := by
  have hne : fallback_price 1000 ≠ heuristic_price 1000 2024 := by
    have e1 : fallback_price 1000 = 120 := by with_unfolding_all rfl
    have e2 : heuristic_price 1000 2024 = 100 := by with_unfolding_all rfl
    rw [e1, e2]
    norm_num
  refine ⟨?_, rfl, rfl, hne⟩
  unfold get_llm_response
  rw [if_neg h]

/-- Closed witness for C5 at pieces=7541 with key `k`. -/
theorem model_failure_fallback_c5_witness :
    get_llm_response (str "k") (.error ()) [] []
        (some ⟨str "75192-1", str "Millennium Falcon", 2017, 7541, some 158⟩)
      = fallbackMsg 7541 :=
  (model_failure_fallback_c5 (str "k") [] []
    ⟨str "75192-1", str "Millennium Falcon", 2017, 7541, some 158⟩
    (by decide)).1

/-- C1 counterexample: with no catalog credential configured, a price query
with an extracted identifier does not raise ConfigError to the caller —
the pipeline catches the `HTTPException(500, "Rebrickable API key not
configured")` like any other fetch failure and returns an ordinary
`ChatResult` carrying its detail. -/
theorem configerror_converted_c1_counterexample :
    process_chat_query ⟨[], []⟩ ⟨.timeout, .exc, .error ()⟩
        (str "price of 75192") =
      ⟨str "Error fetching set data: Rebrickable API key not configured",
       none, none⟩ := by
  decide

/-- C1 (amended): on the pricing path every catalog failure — ConfigError
included — is caught and converted into a `ChatResult` carrying an
explanatory message (the not-found text for 404, the failure detail
otherwise), and on a successful fetch the model call's outcome (success or
failure) is likewise absorbed into the returned `ChatResult` by
`get_llm_response`; nothing is raised to the caller. -/
theorem failures_converted_c1 :
    (∀ (cfg : Config) (w : World) (q sn : List Char) (e : HTTPException),
      pyStrip q ≠ [] → is_price_query q = true →
      extract_set_number q = some sn →
      fetch_set_data cfg.REBRICKABLE_API_KEY sn w.fetchNet = .error e →
      process_chat_query cfg w q =
        (if e.status_code = 404 then ⟨notFoundMsg sn, none, none⟩
         else ⟨str "Error fetching set data: " ++ e.detail, none, none⟩))
    ∧ (∀ (cfg : Config) (w : World) (q sn : List Char) (sd : SetData),
      pyStrip q ≠ [] → is_price_query q = true →
      extract_set_number q = some sn →
      fetch_set_data cfg.REBRICKABLE_API_KEY sn w.fetchNet = .ok sd →
      process_chat_query cfg w q =
        ⟨get_llm_response cfg.OPENAI_API_KEY w.llm (contextStr sd) q
           (some sd),
         some (contextStr sd),
         some ⟨sd.name, sd.set_num, sd.num_parts, sd.year⟩⟩) := by
  constructor
  · intro cfg w q sn e h1 h2 h3 h4
    unfold process_chat_query
    rw [if_neg h1, if_pos (by simp [h2])]
    simp only [h3, h4]
  · intro cfg w q sn sd h1 h2 h3 h4
    unfold process_chat_query
    rw [if_neg h1, if_pos (by simp [h2])]
    simp only [h3, h4]

/-- Closed witness for C1: a timeout (408) is converted into the
explanatory message, and a successful fetch with a failing model call is
converted into the fallback-priced `ChatResult`. -/
theorem failures_converted_c1_witness :
    process_chat_query ⟨str "k", str "o"⟩ ⟨.timeout, .exc, .error ()⟩
        (str "price of 75192") =
      (if (⟨408, str "API request timeout"⟩ : HTTPException).status_code
          = 404
       then ⟨notFoundMsg (str "75192-1"), none, none⟩
       else ⟨str "Error fetching set data: "
              ++ (⟨408, str "API request timeout"⟩ : HTTPException).detail,
             none, none⟩)
    ∧ process_chat_query ⟨str "k", str "o"⟩
        ⟨.response 200 ⟨str "75192-1", str "Millennium Falcon", 2017, 7541,
           some 158⟩, .exc, .error ()⟩
        (str "price of 75192") =
      ⟨get_llm_response (str "o") (.error ())
         (contextStr ⟨str "75192-1", str "Millennium Falcon", 2017, 7541,
            some 158⟩)
         (str "price of 75192")
         (some ⟨str "75192-1", str "Millennium Falcon", 2017, 7541,
            some 158⟩),
       some (contextStr ⟨str "75192-1", str "Millennium Falcon", 2017, 7541,
          some 158⟩),
       some ⟨str "Millennium Falcon", str "75192-1", 7541, 2017⟩⟩ :=
  ⟨failures_converted_c1.1 ⟨str "k", str "o"⟩ ⟨.timeout, .exc, .error ()⟩
     (str "price of 75192") (str "75192-1")
     ⟨408, str "API request timeout"⟩
     (by decide) (by decide) (by decide) rfl,
   failures_converted_c1.2 ⟨str "k", str "o"⟩
     ⟨.response 200 ⟨str "75192-1", str "Millennium Falcon", 2017, 7541,
        some 158⟩, .exc, .error ()⟩
     (str "price of 75192") (str "75192-1")
     ⟨str "75192-1", str "Millennium Falcon", 2017, 7541, some 158⟩
     (by decide) (by decide) (by decide) rfl⟩

/-- C2 counterexample: with the catalog key unset, `searchSets` and the
other auxiliary catalog operations do not fail with ConfigError — each
returns normally with the empty list, even when the network would have
answered with results. -/
theorem aux_ops_no_configerror_c2_counterexample :
    search_sets_by_name [] (str "millennium falcon") 10
        (.response 200 [⟨str "Millennium Falcon", str "75192-1"⟩]) = []
    ∧ get_set_parts [] (str "75192-1")
        (.response 200 [str "3001"]) = []
    ∧ get_themes [] (.response 200 [str "Technic"]) = []
    ∧ get_sets_by_theme [] 1 10 (.response 200 [str "42100-1"]) = [] :=
  ⟨rfl, rfl, rfl, rfl⟩

/-- C2 (amended): with the catalog credential unset, `getSet` fails with
ConfigError (HTTP 500, key-not-configured detail) for every network
outcome, while `searchSets`, `getParts`, `getThemes` and `getSetsByTheme`
return the empty list without error; with the model credential unset, the
estimator silently answers with the deterministic heuristic. -/
theorem missing_credentials_c2 (sn nm : List Char) (ps : ℕ) (tid : ℤ)
    (fnet : FetchOutcome) (snet : SearchOutcome) (anet : AuxOutcome)
    (llm : Except Unit (List Char)) (ctx q : List Char) (sd : SetData) :
    fetch_set_data [] sn fnet
      = .error ⟨500, str "Rebrickable API key not configured"⟩
    ∧ search_sets_by_name [] nm ps snet = []
    ∧ get_set_parts [] sn anet = []
    ∧ get_themes [] anet = []
    ∧ get_sets_by_theme [] tid ps anet = []
    ∧ get_llm_response [] llm ctx q (some sd)
      = heuristicMsg sd.num_parts sd.year
    ∧ get_llm_response [] llm ctx q none
      = str "Unable to estimate price without set data." :=
  ⟨rfl, rfl, rfl, rfl, rfl, rfl, rfl⟩
